import Mathlib

/-!
Shallow embedding of the crud-alunos repository:
a Supabase/Postgres schema (tables `profiles` and `alunos`, row-level
security policies, a profile auto-provisioning trigger, `updated_at`
triggers) together with the client-side form validation and CRUD flow
of `AlunoForm.tsx` and `Dashboard.tsx`.

UUIDs are modelled as `Nat`, timestamps (`now()`) as `Nat`, and the
fallible store operations return `Except String` carrying the
Postgres-style error message text that the client pattern-matches.
-/

namespace CrudAlunos

/-- A row of `auth.users` (the identity provider's user record):
`id`, `email`, and the optional signup metadata field
`raw_user_meta_data->>'nome'`. -/
structure AuthUser where
  id : Nat
  email : String
  meta_nome : Option String
deriving Repr, DecidableEq

/-- A row of `public.profiles`:
`id UUID PRIMARY KEY REFERENCES auth.users(id)`, `nome TEXT NOT NULL`,
`email TEXT NOT NULL UNIQUE`, `created_at`, `updated_at`. -/
structure Profile where
  id : Nat
  nome : String
  email : String
  created_at : Nat
  updated_at : Nat
deriving Repr, DecidableEq

/-- A row of `public.alunos`:
`id UUID PRIMARY KEY`, `nome TEXT NOT NULL`, `email TEXT NOT NULL UNIQUE`,
`matricula TEXT NOT NULL UNIQUE`,
`idade INTEGER NOT NULL CHECK (idade > 0 AND idade < 150)`,
`criado_por UUID NOT NULL REFERENCES public.profiles(id)`,
`created_at`, `updated_at`. -/
structure Aluno where
  id : Nat
  nome : String
  email : String
  matricula : String
  idade : Int
  criado_por : Nat
  created_at : Nat
  updated_at : Nat
deriving Repr, DecidableEq

/-- The whole store: the `auth.users` table and the two public tables.
`nextId` models the `gen_random_uuid()` default generating a fresh
primary key for each inserted aluno. -/
structure DB where
  users : List AuthUser
  profiles : List Profile
  alunos : List Aluno
  nextId : Nat
deriving Repr, DecidableEq

/-- The empty store (state right after the migration runs). -/
def DB.empty : DB := ⟨[], [], [], 0⟩

/-- The `CHECK (idade > 0 AND idade < 150)` constraint on `alunos.idade`. -/
def idadeCheck (i : Int) : Bool := 0 < i && i < 150

/-- Whether some aluno row already uses this email
(the `alunos_email_key` unique constraint). -/
def emailTaken (db : DB) (e : String) : Bool :=
  db.alunos.any (fun a => a.email == e)

/-- Whether some aluno row already uses this matricula
(the `alunos_matricula_key` unique constraint). -/
def matriculaTaken (db : DB) (m : String) : Bool :=
  db.alunos.any (fun a => a.matricula == m)

/-- Whether a profile with this id exists
(the `alunos_criado_por_fkey` foreign key). -/
def profileExists (db : DB) (pid : Nat) : Bool :=
  db.profiles.any (fun p => p.id == pid)

/-- Postgres error text for a row-level-security rejection on `alunos`. -/
def rlsInsertAlunosMsg : String :=
  "new row violates row-level security policy for table \"alunos\""

/-- Postgres error text for the `idade` check-constraint violation. -/
def idadeCheckMsg : String :=
  "new row for relation \"alunos\" violates check constraint \"alunos_idade_check\""

/-- Postgres error text for a duplicate aluno email. -/
def dupAlunoEmailMsg : String :=
  "duplicate key value violates unique constraint \"alunos_email_key\""

/-- Postgres error text for a duplicate matricula. -/
def dupMatriculaMsg : String :=
  "duplicate key value violates unique constraint \"alunos_matricula_key\""

/-- Postgres error text for the `criado_por` foreign-key violation. -/
def fkCriadoPorMsg : String :=
  "insert or update on table \"alunos\" violates foreign key constraint \"alunos_criado_por_fkey\""

/-- The payload of an `INSERT INTO alunos` issued by the client:
`nome`, `email`, `matricula`, `idade`, `criado_por` (the remaining
columns take their defaults). -/
structure InsertPayload where
  nome : String
  email : String
  matricula : String
  idade : Int
  criado_por : Nat
deriving Repr, DecidableEq

/-- The statement `INSERT INTO public.alunos` as guarded by the schema: the RLS policy
"Users can create students" (`WITH CHECK (auth.uid() = criado_por)`),
the `idade` check constraint, the `email` and `matricula` unique
constraints and the `criado_por` foreign key. `uid = none` models an
unauthenticated request (`auth.uid()` is null, so the policy fails).
On success the new row gets a fresh id and `created_at = updated_at =
now` (the column defaults). -/
def insertAluno (uid : Option Nat) (now : Nat) (p : InsertPayload) (db : DB) :
    Except String DB :=
  if uid ≠ some p.criado_por then
    .error rlsInsertAlunosMsg
  else if ¬ idadeCheck p.idade then
    .error idadeCheckMsg
  else if emailTaken db p.email then
    .error dupAlunoEmailMsg
  else if matriculaTaken db p.matricula then
    .error dupMatriculaMsg
  else if ¬ profileExists db p.criado_por then
    .error fkCriadoPorMsg
  else
    .ok { db with
          alunos := { id := db.nextId, nome := p.nome, email := p.email,
                      matricula := p.matricula, idade := p.idade,
                      criado_por := p.criado_por, created_at := now,
                      updated_at := now } :: db.alunos,
          nextId := db.nextId + 1 }

/-- The payload of an `UPDATE alunos SET ...`: any subset of the
non-primary-key columns may be supplied (`none` = column not in the
payload). The client's edit form only ever supplies the first four. -/
structure UpdatePayload where
  nome : Option String := none
  email : Option String := none
  matricula : Option String := none
  idade : Option Int := none
  criado_por : Option Nat := none
  created_at : Option Nat := none
  updated_at : Option Nat := none
deriving Repr, DecidableEq

/-- Apply an update payload to a row (columns absent from the payload
keep their value). -/
def applyPayload (p : UpdatePayload) (a : Aluno) : Aluno :=
  { a with
    nome := p.nome.getD a.nome,
    email := p.email.getD a.email,
    matricula := p.matricula.getD a.matricula,
    idade := p.idade.getD a.idade,
    criado_por := p.criado_por.getD a.criado_por,
    created_at := p.created_at.getD a.created_at,
    updated_at := p.updated_at.getD a.updated_at }

/-- The statement `UPDATE public.alunos ... WHERE id = rowId` as guarded by the schema.
The RLS policy "Users can update their own students"
(`USING (auth.uid() = criado_por)`) filters the targeted rows, so a row
not owned by the requester is simply not updated (zero rows affected,
no error); because the policy has no separate `WITH CHECK`, the
`USING` expression is also checked against the new row. The
`update_alunos_updated_at` BEFORE UPDATE trigger then sets
`NEW.updated_at = now()`, and the check, unique and FK constraints are
enforced on the resulting row. -/
def updateAluno (uid : Option Nat) (now : Nat) (rowId : Nat)
    (p : UpdatePayload) (db : DB) : Except String DB :=
  match db.alunos.find? (fun a => a.id == rowId && some a.criado_por == uid) with
  | none => .ok db
  | some a =>
    let a' := { applyPayload p a with updated_at := now }
    if uid ≠ some a'.criado_por then
      .error rlsInsertAlunosMsg
    else if ¬ idadeCheck a'.idade then
      .error idadeCheckMsg
    else if db.alunos.any (fun b => b.id ≠ a.id && b.email == a'.email) then
      .error dupAlunoEmailMsg
    else if db.alunos.any (fun b => b.id ≠ a.id && b.matricula == a'.matricula) then
      .error dupMatriculaMsg
    else if ¬ profileExists db a'.criado_por then
      .error fkCriadoPorMsg
    else
      .ok { db with
            alunos := db.alunos.map (fun b => if b.id = a.id then a' else b) }

/-- The statement `DELETE FROM public.alunos WHERE id = rowId` as guarded by the RLS
policy "Users can delete their own students"
(`USING (auth.uid() = criado_por)`): rows the requester does not own
are invisible to the delete, so they survive; no error is raised. -/
def deleteAluno (uid : Option Nat) (rowId : Nat) (db : DB) : DB :=
  { db with
    alunos := db.alunos.filter
      (fun a => ¬ (a.id = rowId ∧ some a.criado_por = uid)) }

/-- The `handle_new_user` trigger function: inserts into
`public.profiles` the row `(new.id, COALESCE(new.raw_user_meta_data->>'nome', ''),
new.email)`; the insert is subject to the `profiles` primary key and
the `profiles_email_key` unique constraint. -/
def handle_new_user (u : AuthUser) (now : Nat) (profiles : List Profile) :
    Except String (List Profile) :=
  if profiles.any (fun p => p.id == u.id) then
    .error "duplicate key value violates unique constraint \"profiles_pkey\""
  else if profiles.any (fun p => p.email == u.email) then
    .error "duplicate key value violates unique constraint \"profiles_email_key\""
  else
    .ok ({ id := u.id, nome := u.meta_nome.getD "", email := u.email,
           created_at := now, updated_at := now } :: profiles)

/-- Creation of a new identity: the insert into `auth.users` together
with the `on_auth_user_created` AFTER INSERT trigger running
`handle_new_user` in the same transaction — if the profile insert
fails, the whole transaction (identity creation included) fails and
the store is unchanged. -/
def createUser (u : AuthUser) (now : Nat) (db : DB) : Except String DB :=
  if db.users.any (fun v => v.id == u.id) then
    .error "duplicate key value violates unique constraint \"users_pkey\""
  else
    match handle_new_user u now db.profiles with
    | .error e => .error e
    | .ok ps => .ok { db with users := u :: db.users, profiles := ps }

/-- The payload of an `UPDATE profiles SET ...` (non-primary-key columns). -/
structure ProfileUpdatePayload where
  nome : Option String := none
  email : Option String := none
  created_at : Option Nat := none
  updated_at : Option Nat := none
deriving Repr, DecidableEq

/-- Apply a profile update payload to a profile row. -/
def applyProfilePayload (p : ProfileUpdatePayload) (pr : Profile) : Profile :=
  { pr with
    nome := p.nome.getD pr.nome,
    email := p.email.getD pr.email,
    created_at := p.created_at.getD pr.created_at,
    updated_at := p.updated_at.getD pr.updated_at }

/-- The statement `UPDATE public.profiles ... WHERE id = rowId` as guarded by the
policy "Users can update their own profile" (`USING (auth.uid() = id)`)
and the `update_profiles_updated_at` BEFORE UPDATE trigger, which sets
`NEW.updated_at = now()`. -/
def updateProfile (uid : Option Nat) (now : Nat) (rowId : Nat)
    (p : ProfileUpdatePayload) (db : DB) : Except String DB :=
  match db.profiles.find? (fun pr => pr.id == rowId && some pr.id == uid) with
  | none => .ok db
  | some pr =>
    let pr' := { applyProfilePayload p pr with updated_at := now }
    if uid ≠ some pr'.id then
      .error "new row violates row-level security policy for table \"profiles\""
    else if db.profiles.any (fun q => q.id ≠ pr.id && q.email == pr'.email) then
      .error "duplicate key value violates unique constraint \"profiles_email_key\""
    else
      .ok { db with
            profiles := db.profiles.map (fun q => if q.id = pr.id then pr' else q) }

/-- Insert a row into a list kept in descending `created_at` order. -/
def insertByCreatedDesc (a : Aluno) : List Aluno → List Aluno
  | [] => [a]
  | b :: l =>
    if b.created_at ≤ a.created_at then a :: b :: l
    else b :: insertByCreatedDesc a l

/-- Sort rows by `created_at` descending
(the `.order("created_at", ascending: false)` of `fetchAlunos`). -/
def sortByCreatedDesc : List Aluno → List Aluno
  | [] => []
  | a :: l => insertByCreatedDesc a (sortByCreatedDesc l)

/-- The function `fetchAlunos` of `Dashboard.tsx`: `select * from alunos order by
created_at desc`, filtered by the RLS policy "Users can view their own
students" (`USING (auth.uid() = criado_por)`). -/
def fetchAlunos (uid : Option Nat) (db : DB) : List Aluno :=
  sortByCreatedDesc (db.alunos.filter (fun a => some a.criado_por == uid))

/-- Whether the pattern matches at the head of the character list. -/
def matchHere : List Char → List Char → Bool
  | [], _ => true
  | _ :: _, [] => false
  | p :: ps, c :: cs => p == c && matchHere ps cs

/-- Whether `pat` occurs as a contiguous run inside `s`. -/
def containsSub : List Char → List Char → Bool
  | [], pat => pat.isEmpty
  | c :: cs, pat => matchHere pat (c :: cs) || containsSub cs pat

/-- JavaScript's `String.prototype.includes`, used by the client's
error-message pattern matching. -/
def strIncludes (s pat : String) : Bool := containsSub s.data pat.data

/-- The client's translation of a store error into a toast message
(`handleSubmit` of `AlunoForm.tsx`): if the message includes
"duplicate key" then a field-specific conflict message for "email" or
"matricula" (and no toast at all when neither substring occurs);
otherwise the generic failure message for the operation. -/
def classifyError (generic : String) (e : String) : Option String :=
  if strIncludes e "duplicate key" then
    if strIncludes e "email" then some "Este email já está cadastrado"
    else if strIncludes e "matricula" then some "Esta matrícula já está cadastrada"
    else none
  else some generic

/-- JavaScript's `String.prototype.trim` (what zod's `.trim()` applies):
remove leading and trailing whitespace. -/
def jsTrim (s : String) : String :=
  ⟨((s.data.dropWhile Char.isWhitespace).reverse.dropWhile
      Char.isWhitespace).reverse⟩

/-- The raw form state of `AlunoForm.tsx` at submit time. `idade` holds
the result of `parseInt(formData.idade)`: `some n` for an integer,
`none` for `NaN` (a JS `parseInt` never produces a non-integer). -/
structure RawForm where
  nome : String
  email : String
  matricula : String
  idade : Option Int
deriving Repr, DecidableEq

/-- The output of a successful `alunoSchema.parse`. -/
structure ValidatedAluno where
  nome : String
  email : String
  matricula : String
  idade : Int
deriving Repr, DecidableEq

/-- The call `alunoSchema.parse` of `AlunoForm.tsx`, surfacing
`error.errors[0].message` on failure. Fields are checked in the
schema's declared order (nome, email, matricula, idade) and each
field's chain in order, so the first violated rule's message is the
one returned:
`nome: z.string().trim().min(2, msg).max(100)`,
`email: z.string().trim().email(msg).max(255)`,
`matricula: z.string().trim().min(3, msg).max(50)`,
`idade: z.number().int().min(1, msg).max(150, msg)`.
Zod's `.email()` predicate is a library regex, taken here as the
parameter `emailOk` applied to the trimmed email. -/
def validateAluno (emailOk : String → Bool) (f : RawForm) :
    Except String ValidatedAluno :=
  let nome := jsTrim f.nome
  let email := jsTrim f.email
  let mat := jsTrim f.matricula
  if nome.length < 2 then .error "Nome deve ter no mínimo 2 caracteres"
  else if nome.length > 100 then .error "String must contain at most 100 character(s)"
  else if ¬ emailOk email then .error "Email inválido"
  else if email.length > 255 then .error "String must contain at most 255 character(s)"
  else if mat.length < 3 then .error "Matrícula deve ter no mínimo 3 caracteres"
  else if mat.length > 50 then .error "String must contain at most 50 character(s)"
  else
    match f.idade with
    | none => .error "Expected number, received nan"
    | some n =>
      if n < 1 then .error "Idade deve ser maior que 0"
      else if n > 150 then .error "Idade inválida"
      else .ok { nome := nome, email := email, matricula := mat, idade := n }

/-- A request the client sends to the storage boundary. -/
inductive StoreReq
  | insert (p : InsertPayload)
  | update (rowId : Nat) (p : UpdatePayload)
  | delete (rowId : Nat)
deriving Repr, DecidableEq

/-- The update payload the edit form builds: exactly the four validated
fields (`.update(validated)`), nothing else. -/
def toUpdatePayload (v : ValidatedAluno) : UpdatePayload :=
  { nome := some v.nome, email := some v.email,
    matricula := some v.matricula, idade := some v.idade }

/-- What a client handler did: the store requests it issued, the toast
it surfaced (if any), and the resulting store state. -/
structure SubmitResult where
  requests : List StoreReq
  toast : Option String
  db : DB
deriving Repr, DecidableEq

/-- The function `handleSubmit` of `AlunoForm.tsx`: validate (a `ZodError` surfaces
`errors[0].message` and nothing is sent); then `supabase.auth.getUser()`
(`user = none` surfaces "Usuário não autenticado" and nothing is sent);
then either `.update(validated).eq("id", aluno.id)` when editing
(`editing = some id`) or `.insert([{...validated, criado_por: user.id}])`
when creating; a store error is translated by `classifyError`, success
surfaces the success toast. -/
def handleSubmit (emailOk : String → Bool) (user : Option Nat)
    (editing : Option Nat) (f : RawForm) (now : Nat) (db : DB) : SubmitResult :=
  match validateAluno emailOk f with
  | .error m => { requests := [], toast := some m, db := db }
  | .ok v =>
    match user with
    | none => { requests := [], toast := some "Usuário não autenticado", db := db }
    | some uid =>
      match editing with
      | some rowId =>
        let req := StoreReq.update rowId (toUpdatePayload v)
        match updateAluno (some uid) now rowId (toUpdatePayload v) db with
        | .error e =>
          { requests := [req], toast := classifyError "Erro ao atualizar aluno" e,
            db := db }
        | .ok db' =>
          { requests := [req], toast := some "Aluno atualizado com sucesso!",
            db := db' }
      | none =>
        let p : InsertPayload :=
          { nome := v.nome, email := v.email, matricula := v.matricula,
            idade := v.idade, criado_por := uid }
        match insertAluno (some uid) now p db with
        | .error e =>
          { requests := [StoreReq.insert p],
            toast := classifyError "Erro ao criar aluno" e, db := db }
        | .ok db' =>
          { requests := [StoreReq.insert p],
            toast := some "Aluno criado com sucesso!", db := db' }

/-- The function `handleDelete` of `Dashboard.tsx`: if an aluno is selected for
deletion, send the delete request to the store straight away — the
handler performs no authentication check of its own; `sessionUid` is
the identity the store extracts from the request's credential
(`none` when no session exists). -/
def handleDelete (sessionUid : Option Nat) (alunoToDelete : Option Nat)
    (db : DB) : SubmitResult :=
  match alunoToDelete with
  | none => { requests := [], toast := none, db := db }
  | some rowId =>
    { requests := [StoreReq.delete rowId],
      toast := some "Aluno excluído com sucesso!",
      db := deleteAluno sessionUid rowId db }

/-- The data-integrity invariant of the `alunos` table: primary keys are
pairwise distinct, emails are pairwise distinct, matriculas are
pairwise distinct, and every stored id is below the id generator. -/
def Inv (db : DB) : Prop :=
  db.alunos.Pairwise (fun a b => a.id ≠ b.id) ∧
  db.alunos.Pairwise (fun a b => a.email ≠ b.email) ∧
  db.alunos.Pairwise (fun a b => a.matricula ≠ b.matricula) ∧
  ∀ a ∈ db.alunos, a.id < db.nextId

/-- Store states reachable from the freshly migrated (empty) store by
the operations the system performs. -/
inductive Reachable : DB → Prop
  | init : Reachable DB.empty
  | signup {db db' : DB} {u : AuthUser} {now : Nat} :
      Reachable db → createUser u now db = .ok db' → Reachable db'
  | ins {db db' : DB} {uid : Option Nat} {now : Nat} {p : InsertPayload} :
      Reachable db → insertAluno uid now p db = .ok db' → Reachable db'
  | upd {db db' : DB} {uid : Option Nat} {now rowId : Nat} {p : UpdatePayload} :
      Reachable db → updateAluno uid now rowId p db = .ok db' → Reachable db'
  | del {db : DB} {uid : Option Nat} {rowId : Nat} :
      Reachable db → Reachable (deleteAluno uid rowId db)
  | updProf {db db' : DB} {uid : Option Nat} {now rowId : Nat}
      {p : ProfileUpdatePayload} :
      Reachable db → updateProfile uid now rowId p db = .ok db' → Reachable db'

/-- Concrete test data: a signup. -/
def u0 : AuthUser := { id := 1, email := "owner@x.com", meta_nome := some "Ana" }

/-- The profile the `handle_new_user` trigger provisions for `u0`. -/
def profile0 : Profile :=
  { id := 1, nome := "Ana", email := "owner@x.com", created_at := 5, updated_at := 5 }

/-- The store right after `u0` signs up. -/
def dbS : DB := { users := [u0], profiles := [profile0], alunos := [], nextId := 0 }

/-- The student row created by the first insert. -/
def aluno0 : Aluno :=
  { id := 0, nome := "Ana Silva", email := "ana@x.com", matricula := "M001",
    idade := 20, criado_por := 1, created_at := 6, updated_at := 6 }

/-- The insert payload producing `aluno0`. -/
def p0 : InsertPayload :=
  { nome := "Ana Silva", email := "ana@x.com", matricula := "M001",
    idade := 20, criado_por := 1 }

/-- A second, non-conflicting insert payload. -/
def p1 : InsertPayload :=
  { nome := "Bia Costa", email := "bia@x.com", matricula := "M002",
    idade := 21, criado_por := 1 }

/-- An insert payload that reuses `aluno0`'s email. -/
def p2 : InsertPayload :=
  { nome := "Bia Costa", email := "ana@x.com", matricula := "M002",
    idade := 21, criado_por := 1 }

/-- The store after `u0` signs up and inserts `aluno0`. -/
def db1 : DB :=
  { users := [u0], profiles := [profile0], alunos := [aluno0], nextId := 1 }

/-- A form whose name is too short (and whose other fields are fine). -/
def fShortNome : RawForm :=
  { nome := "A", email := "bia@x.com", matricula := "M002", idade := some 21 }

/-- An update payload that (unlike anything the edit form sends)
supplies a value for `created_at`. -/
def upCreatedPayload : UpdatePayload := { created_at := some 99 }

/-- The row `aluno0` after an update whose payload set `created_at := 99`,
run at time 8. -/
def aluno0shifted : Aluno :=
  { id := 0, nome := "Ana Silva", email := "ana@x.com", matricula := "M001",
    idade := 20, criado_por := 1, created_at := 99, updated_at := 8 }

/-- The store `db1` with `aluno0` replaced by `aluno0shifted`. -/
def db1shifted : DB :=
  { users := [u0], profiles := [profile0], alunos := [aluno0shifted],
    nextId := 1 }

/-- A validated edit of `aluno0` (new name and age). -/
def vEdit : ValidatedAluno :=
  { nome := "Ana Maria", email := "ana@x.com", matricula := "M001",
    idade := 21 }

/-- The row `aluno0` after the edit-form update `vEdit`, run at time 8. -/
def aluno0edit : Aluno :=
  { id := 0, nome := "Ana Maria", email := "ana@x.com", matricula := "M001",
    idade := 21, criado_por := 1, created_at := 6, updated_at := 8 }

/-- The store `db1` with `aluno0` replaced by `aluno0edit`. -/
def db1edit : DB :=
  { users := [u0], profiles := [profile0], alunos := [aluno0edit],
    nextId := 1 }

lemma applyPayload_id (p : UpdatePayload) (a : Aluno) :
    (applyPayload p a).id = a.id := rfl

lemma pairwise_replace_field {l : List Aluno} {aid : Nat} {a' : Aluno}
    (g : Aluno → String)
    (hids : l.Pairwise (fun x y => x.id ≠ y.id))
    (hfld : l.Pairwise (fun x y => g x ≠ g y))
    (hnew : ∀ b ∈ l, b.id ≠ aid → g b ≠ g a') :
    (l.map (fun b => if b.id = aid then a' else b)).Pairwise
      (fun x y => g x ≠ g y) := by
  induction l with
  | nil => simp
  | cons b l ih =>
    rw [List.pairwise_cons] at hids hfld
    rw [List.map_cons, List.pairwise_cons]
    refine ⟨?_, ih hids.2 hfld.2 (fun c hc => hnew c (List.mem_cons_of_mem b hc))⟩
    intro c hc
    obtain ⟨c₀, hc₀, rfl⟩ := List.mem_map.1 hc
    have hcid : c₀.id ≠ aid ∨ b.id ≠ aid := by
      by_cases hb : b.id = aid
      · exact Or.inl (fun h => (hids.1 c₀ hc₀) (hb.trans h.symm))
      · exact Or.inr hb
    by_cases hb : b.id = aid
    · have hcne : c₀.id ≠ aid := hcid.resolve_right (fun h => h hb)
      rw [if_pos hb, if_neg hcne]
      exact fun h => (hnew c₀ (List.mem_cons_of_mem b hc₀) hcne) h.symm
    · rw [if_neg hb]
      by_cases hcne : c₀.id = aid
      · rw [if_pos hcne]
        exact hnew b (List.mem_cons_self b l) hb
      · rw [if_neg hcne]
        exact hfld.1 c₀ hc₀

lemma any_eq_false_forall {l : List Aluno} {f : Aluno → Bool}
    (h : l.any f = false) : ∀ a ∈ l, f a = false := by
  rw [List.any_eq_false] at h
  intro a ha
  exact Bool.of_not_eq_true (h a ha)

lemma replace_id (a' : Aluno) (aid : Nat) (haid : a'.id = aid) (b : Aluno) :
    (if b.id = aid then a' else b).id = b.id := by
  by_cases hb : b.id = aid
  · rw [if_pos hb, haid, hb]
  · rw [if_neg hb]

lemma insertAluno_inv {uid : Option Nat} {now : Nat} {p : InsertPayload}
    {db db' : DB} (hinv : Inv db) (h : insertAluno uid now p db = .ok db') :
    Inv db' := by
  obtain ⟨hid, hem, hmat, hbound⟩ := hinv
  unfold insertAluno at h
  split_ifs at h with h1 h2 h3 h4 h5
  rw [Except.ok.injEq] at h
  subst h
  refine ⟨?_, ?_, ?_, ?_⟩
  · rw [List.pairwise_cons]
    exact ⟨fun b hb => Nat.ne_of_gt (hbound b hb), hid⟩
  · rw [List.pairwise_cons]
    refine ⟨?_, hem⟩
    intro b hb
    have hf : (b.email == p.email) = false :=
      any_eq_false_forall (Bool.of_not_eq_true h3) b hb
    exact fun hEq => ne_of_beq_false hf hEq.symm
  · rw [List.pairwise_cons]
    refine ⟨?_, hmat⟩
    intro b hb
    have hf : (b.matricula == p.matricula) = false :=
      any_eq_false_forall (Bool.of_not_eq_true h4) b hb
    exact fun hEq => ne_of_beq_false hf hEq.symm
  · intro a ha
    rcases List.mem_cons.1 ha with rfl | ha'
    · exact Nat.lt_succ_self _
    · exact Nat.lt_succ_of_lt (hbound a ha')

lemma updateAluno_inv {uid : Option Nat} {now rowId : Nat}
    {p : UpdatePayload} {db db' : DB} (hinv : Inv db)
    (h : updateAluno uid now rowId p db = .ok db') : Inv db' := by
  obtain ⟨hid, hem, hmat, hbound⟩ := hinv
  unfold updateAluno at h
  rcases hfind : db.alunos.find? (fun a => a.id == rowId && some a.criado_por == uid)
    with _ | a
  · rw [hfind] at h
    rw [Except.ok.injEq] at h
    subst h
    exact ⟨hid, hem, hmat, hbound⟩
  · rw [hfind] at h
    simp only at h
    split_ifs at h with h1 h2 h3 h4 h5
    rw [Except.ok.injEq] at h
    subst h
    have haid : ({ applyPayload p a with updated_at := now } : Aluno).id = a.id := rfl
    refine ⟨?_, ?_, ?_, ?_⟩
    · refine List.Pairwise.map _ ?_ hid
      intro x y hxy
      show (if x.id = a.id then _ else x).id ≠ (if y.id = a.id then _ else y).id
      rw [replace_id _ a.id haid x, replace_id _ a.id haid y]
      exact hxy
    · refine pairwise_replace_field Aluno.email hid hem ?_
      intro b hb hbne
      have hf := any_eq_false_forall (Bool.of_not_eq_true h3) b hb
      have hf' : (decide (b.id ≠ a.id) && b.email ==
          (applyPayload p a).email) = false := hf
      rcases Bool.and_eq_false_iff.1 hf' with hfalse | hfalse
      · exact absurd hbne (by simpa using hfalse)
      · exact ne_of_beq_false hfalse
    · refine pairwise_replace_field Aluno.matricula hid hmat ?_
      intro b hb hbne
      have hf := any_eq_false_forall (Bool.of_not_eq_true h4) b hb
      have hf' : (decide (b.id ≠ a.id) && b.matricula ==
          (applyPayload p a).matricula) = false := hf
      rcases Bool.and_eq_false_iff.1 hf' with hfalse | hfalse
      · exact absurd hbne (by simpa using hfalse)
      · exact ne_of_beq_false hfalse
    · intro c hc
      obtain ⟨c₀, hc₀, rfl⟩ := List.mem_map.1 hc
      show (if c₀.id = a.id then _ else c₀).id < db.nextId
      rw [replace_id _ a.id haid c₀]
      exact hbound c₀ hc₀

lemma deleteAluno_inv {uid : Option Nat} {rowId : Nat} {db : DB}
    (hinv : Inv db) : Inv (deleteAluno uid rowId db) := by
  obtain ⟨hid, hem, hmat, hbound⟩ := hinv
  refine ⟨?_, ?_, ?_, ?_⟩
  · exact hid.sublist (List.filter_sublist _)
  · exact hem.sublist (List.filter_sublist _)
  · exact hmat.sublist (List.filter_sublist _)
  · intro a ha
    exact hbound a (List.mem_of_mem_filter ha)

lemma createUser_inv {u : AuthUser} {now : Nat} {db db' : DB}
    (hinv : Inv db) (h : createUser u now db = .ok db') : Inv db' := by
  unfold createUser at h
  split_ifs at h with h1
  rcases hh : handle_new_user u now db.profiles with _ | ps
  · rw [hh] at h
    exact absurd h (by simp)
  · rw [hh] at h
    simp only [Except.ok.injEq] at h
    subst h
    exact hinv

lemma updateProfile_inv {uid : Option Nat} {now rowId : Nat}
    {p : ProfileUpdatePayload} {db db' : DB} (hinv : Inv db)
    (h : updateProfile uid now rowId p db = .ok db') : Inv db' := by
  unfold updateProfile at h
  rcases hfind : db.profiles.find? (fun pr => pr.id == rowId && some pr.id == uid)
    with _ | pr
  · rw [hfind] at h
    rw [Except.ok.injEq] at h
    subst h
    exact hinv
  · rw [hfind] at h
    simp only at h
    split_ifs at h with h1 h2
    rw [Except.ok.injEq] at h
    subst h
    exact hinv

/-- Every reachable store state satisfies the data-integrity invariant. -/
lemma reachable_inv {db : DB} (h : Reachable db) : Inv db := by
  induction h with
  | init => refine ⟨?_, ?_, ?_, ?_⟩ <;> simp [DB.empty]
  | signup _ hok ih => exact createUser_inv ih hok
  | ins _ hok ih => exact insertAluno_inv ih hok
  | upd _ hok ih => exact updateAluno_inv ih hok
  | del _ ih => exact deleteAluno_inv ih
  | updProf _ hok ih => exact updateProfile_inv ih hok

lemma reachable_dbS : Reachable dbS :=
  @Reachable.signup DB.empty dbS u0 5 Reachable.init (by rfl)

lemma reachable_db1 : Reachable db1 :=
  @Reachable.ins dbS db1 (some 1) 6 p0 reachable_dbS (by rfl)

lemma mem_insertByCreatedDesc {a x : Aluno} {l : List Aluno} :
    x ∈ insertByCreatedDesc a l ↔ x = a ∨ x ∈ l := by
  induction l with
  | nil => simp [insertByCreatedDesc]
  | cons b l ih =>
    unfold insertByCreatedDesc
    split_ifs with hle
    · rw [List.mem_cons]
    · rw [List.mem_cons, ih, List.mem_cons]
      tauto

lemma mem_sortByCreatedDesc {x : Aluno} {l : List Aluno} :
    x ∈ sortByCreatedDesc l ↔ x ∈ l := by
  induction l with
  | nil => exact Iff.rfl
  | cons a l ih =>
    unfold sortByCreatedDesc
    rw [mem_insertByCreatedDesc, ih, List.mem_cons]

lemma eq_of_mem_pairwise_id {l : List Aluno}
    (hp : l.Pairwise (fun a b => a.id ≠ b.id)) {a b : Aluno}
    (ha : a ∈ l) (hb : b ∈ l) (hid : a.id = b.id) : a = b := by
  induction l with
  | nil => cases ha
  | cons c l ih =>
    rw [List.pairwise_cons] at hp
    rcases List.mem_cons.1 ha with rfl | ha' <;> rcases List.mem_cons.1 hb with rfl | hb'
    · rfl
    · exact absurd hid (hp.1 b hb')
    · exact absurd hid.symm (hp.1 a ha')
    · exact ih hp.2 ha' hb'

/-- C1: for every pair of students with distinct owners, the list fetch
under one identity returns exactly the rows owned by that identity —
membership in `fetchAlunos (some u) db` is equivalent to being a stored
row whose `criado_por` equals `u`, so a row owned by anyone else is
never returned. -/
theorem fetchAlunos_only_own_rows (db : DB) (u : Nat) (b : Aluno) :
    b ∈ fetchAlunos (some u) db ↔ b ∈ db.alunos ∧ b.criado_por = u := by
  unfold fetchAlunos
  rw [mem_sortByCreatedDesc, List.mem_filter]
  simp

/-- C2: a write on a student row whose declared owner (for inserts and
owner-changing updates) or existing owner (for updates and deletes of
another user's row) differs from the requester's identity has no
effect: the insert errors, the update either errors or returns the
store unchanged, and the delete leaves the foreign row in place. -/
theorem wrongOwnerWriteRejected (uid : Option Nat) (now : Nat) (db : DB)
    (hreach : Reachable db) :
    (∀ p : InsertPayload, uid ≠ some p.criado_por →
        ∃ e, insertAluno uid now p db = .error e) ∧
    (∀ (rowId : Nat) (p : UpdatePayload) (c : Nat), p.criado_por = some c →
        uid ≠ some c →
        ∀ db', updateAluno uid now rowId p db = .ok db' → db' = db) ∧
    (∀ b ∈ db.alunos, uid ≠ some b.criado_por →
        ∀ (p : UpdatePayload) (db'),
          updateAluno uid now b.id p db = .ok db' → db' = db) ∧
    (∀ b ∈ db.alunos, uid ≠ some b.criado_por →
        ∀ rowId, b ∈ (deleteAluno uid rowId db).alunos) := by
  refine ⟨?_, ?_, ?_, ?_⟩
  · intro p hne
    refine ⟨rlsInsertAlunosMsg, ?_⟩
    unfold insertAluno
    rw [if_pos hne]
  · intro rowId p c hcp hne db' h
    unfold updateAluno at h
    rcases hfind : db.alunos.find?
        (fun a => a.id == rowId && some a.criado_por == uid) with _ | a
    · rw [hfind] at h
      rw [Except.ok.injEq] at h
      exact h.symm
    · rw [hfind] at h
      simp only at h
      have hcrit : ({ applyPayload p a with updated_at := now } : Aluno).criado_por
          = c := by
        show (applyPayload p a).criado_por = c
        unfold applyPayload
        rw [hcp]
        rfl
      rw [if_pos (by rw [hcrit]; exact hne)] at h
      cases h
  · intro b hb hne p db' h
    unfold updateAluno at h
    rcases hfind : db.alunos.find?
        (fun a => a.id == b.id && some a.criado_por == uid) with _ | a
    · rw [hfind] at h
      rw [Except.ok.injEq] at h
      exact h.symm
    · exfalso
      have hmem : a ∈ db.alunos := List.mem_of_find?_eq_some hfind
      have hpred := List.find?_some hfind
      rw [Bool.and_eq_true] at hpred
      have hida : a.id = b.id := by simpa using hpred.1
      have howner : some a.criado_por = uid := by simpa using hpred.2
      have hab : a = b :=
        eq_of_mem_pairwise_id (reachable_inv hreach).1 hmem hb hida
      exact hne (hab ▸ howner).symm
  · intro b hb hne rowId
    refine List.mem_filter.2 ⟨hb, ?_⟩
    rw [decide_eq_true_eq]
    exact fun hcon => hne hcon.2.symm

/-- Witness for C2 at concrete inputs: requester 2 can neither insert a
row declared as owned by 1, nor delete user 1's row `aluno0`. -/
theorem wrongOwnerWriteRejected_witness :
    (∃ e, insertAluno (some 2) 7 p1 db1 = Except.error e) ∧
    aluno0 ∈ (deleteAluno (some 2) 0 db1).alunos :=
  ⟨(wrongOwnerWriteRejected (some 2) 7 db1 reachable_db1).1 p1 (by decide),
   (wrongOwnerWriteRejected (some 2) 7 db1 reachable_db1).2.2.2 aluno0
     (by decide) (by decide) 0⟩

/-- C4: at every reachable store state any two distinct student rows
have different emails and different matriculas; an insert that would
duplicate an existing email or matricula fails (every failing store
operation returns an error and the pre-state is kept, so the table is
exactly as before the attempt), and every successful update maintains
the distinctness. -/
theorem alunosUniqueInvariant (db : DB) (hreach : Reachable db) :
    db.alunos.Pairwise
      (fun a b => a.email ≠ b.email ∧ a.matricula ≠ b.matricula) ∧
    (∀ (uid : Option Nat) (now : Nat) (p : InsertPayload),
        emailTaken db p.email = true ∨ matriculaTaken db p.matricula = true →
        ∃ e, insertAluno uid now p db = .error e) ∧
    (∀ (uid : Option Nat) (now rowId : Nat) (p : UpdatePayload) (db' : DB),
        updateAluno uid now rowId p db = .ok db' →
        db'.alunos.Pairwise
          (fun a b => a.email ≠ b.email ∧ a.matricula ≠ b.matricula)) := by
  obtain ⟨hid, hem, hmat, hbound⟩ := reachable_inv hreach
  refine ⟨hem.and hmat, ?_, ?_⟩
  · intro uid now p hdup
    cases hres : insertAluno uid now p db with
    | error e => exact ⟨e, rfl⟩
    | ok dbnew =>
      exfalso
      unfold insertAluno at hres
      split_ifs at hres with h1 h2 h3 h4 h5
      rcases hdup with hdup | hdup
      · exact h3 hdup
      · exact h4 hdup
  · intro uid now rowId p db' h
    obtain ⟨_, hem', hmat', _⟩ := updateAluno_inv ⟨hid, hem, hmat, hbound⟩ h
    exact hem'.and hmat'

/-- Witness for C4 at a concrete reachable state: in `db1` the rows are
pairwise distinct on email and matricula, and inserting `p2` (which
reuses `aluno0`'s email) fails. -/
theorem alunosUniqueInvariant_witness :
    db1.alunos.Pairwise
      (fun a b => a.email ≠ b.email ∧ a.matricula ≠ b.matricula) ∧
    (∃ e, insertAluno (some 1) 7 p2 db1 = Except.error e) :=
  ⟨(alunosUniqueInvariant db1 reachable_db1).1,
   (alunosUniqueInvariant db1 reachable_db1).2.1 (some 1) 7 p2
     (Or.inl (by decide))⟩

lemma handleSubmit_validation_error {emailOk : String → Bool}
    {f : RawForm} {m : String} (user editing : Option Nat)
    (now : Nat) (db : DB) (hv : validateAluno emailOk f = .error m) :
    handleSubmit emailOk user editing f now db =
      { requests := [], toast := some m, db := db } := by
  unfold handleSubmit
  rw [hv]

lemma handleSubmit_noauth {emailOk : String → Bool} {f : RawForm}
    {v : ValidatedAluno} (editing : Option Nat) (now : Nat) (db : DB)
    (hv : validateAluno emailOk f = .ok v) :
    handleSubmit emailOk none editing f now db =
      { requests := [], toast := some "Usuário não autenticado", db := db } := by
  unfold handleSubmit
  rw [hv]

lemma handleSubmit_create_eq {emailOk : String → Bool} {f : RawForm}
    (u : Nat) (now : Nat) (db : DB) (vn ve vm : String) (vi : Int)
    (hv : validateAluno emailOk f = .ok ⟨vn, ve, vm, vi⟩) :
    handleSubmit emailOk (some u) none f now db =
      (match insertAluno (some u) now
          { nome := vn, email := ve, matricula := vm, idade := vi,
            criado_por := u } db with
      | .error e =>
        { requests := [StoreReq.insert
            { nome := vn, email := ve, matricula := vm, idade := vi,
              criado_por := u }],
          toast := classifyError "Erro ao criar aluno" e, db := db }
      | .ok db' =>
        { requests := [StoreReq.insert
            { nome := vn, email := ve, matricula := vm, idade := vi,
              criado_por := u }],
          toast := some "Aluno criado com sucesso!", db := db' }) := by
  unfold handleSubmit
  rw [hv]

lemma handleSubmit_update_eq {emailOk : String → Bool} {f : RawForm}
    (u : Nat) (rowId : Nat) (now : Nat) (db : DB)
    (vn ve vm : String) (vi : Int)
    (hv : validateAluno emailOk f = .ok ⟨vn, ve, vm, vi⟩) :
    handleSubmit emailOk (some u) (some rowId) f now db =
      (match updateAluno (some u) now rowId
          (toUpdatePayload ⟨vn, ve, vm, vi⟩) db with
      | .error e =>
        { requests := [StoreReq.update rowId (toUpdatePayload ⟨vn, ve, vm, vi⟩)],
          toast := classifyError "Erro ao atualizar aluno" e, db := db }
      | .ok db' =>
        { requests := [StoreReq.update rowId (toUpdatePayload ⟨vn, ve, vm, vi⟩)],
          toast := some "Aluno atualizado com sucesso!", db := db' }) := by
  unfold handleSubmit
  rw [hv]

lemma insertAluno_error_inv {uid : Option Nat} {now : Nat}
    {p : InsertPayload} {db : DB} {e : String}
    (h : insertAluno uid now p db = .error e) :
    (uid ≠ some p.criado_por ∧ e = rlsInsertAlunosMsg) ∨
    (uid = some p.criado_por ∧ idadeCheck p.idade = false ∧
      e = idadeCheckMsg) ∨
    (uid = some p.criado_por ∧ idadeCheck p.idade = true ∧
      emailTaken db p.email = true ∧ e = dupAlunoEmailMsg) ∨
    (uid = some p.criado_por ∧ idadeCheck p.idade = true ∧
      emailTaken db p.email = false ∧ matriculaTaken db p.matricula = true ∧
      e = dupMatriculaMsg) ∨
    (uid = some p.criado_por ∧ idadeCheck p.idade = true ∧
      emailTaken db p.email = false ∧ matriculaTaken db p.matricula = false ∧
      profileExists db p.criado_por = false ∧ e = fkCriadoPorMsg) := by
  unfold insertAluno at h
  by_cases h1 : uid ≠ some p.criado_por
  · rw [if_pos h1, Except.error.injEq] at h
    exact Or.inl ⟨h1, h.symm⟩
  · rw [if_neg h1] at h
    have h1' : uid = some p.criado_por := not_not.1 h1
    by_cases h2 : idadeCheck p.idade = true
    · rw [if_neg (not_not_intro h2)] at h
      by_cases h3 : emailTaken db p.email = true
      · rw [if_pos h3, Except.error.injEq] at h
        exact Or.inr (Or.inr (Or.inl ⟨h1', h2, h3, h.symm⟩))
      · rw [if_neg h3] at h
        have h3' := Bool.of_not_eq_true h3
        by_cases h4 : matriculaTaken db p.matricula = true
        · rw [if_pos h4, Except.error.injEq] at h
          exact Or.inr (Or.inr (Or.inr (Or.inl ⟨h1', h2, h3', h4, h.symm⟩)))
        · rw [if_neg h4] at h
          have h4' := Bool.of_not_eq_true h4
          by_cases h5 : profileExists db p.criado_por = true
          · rw [if_neg (not_not_intro h5)] at h
            exact Except.noConfusion h
          · rw [if_pos h5, Except.error.injEq] at h
            exact Or.inr (Or.inr (Or.inr (Or.inr
              ⟨h1', h2, h3', h4', Bool.of_not_eq_true h5, h.symm⟩)))
    · rw [if_pos h2, Except.error.injEq] at h
      exact Or.inr (Or.inl ⟨h1', Bool.of_not_eq_true h2, h.symm⟩)

lemma insertAluno_ok_inv {uid : Option Nat} {now : Nat}
    {p : InsertPayload} {db db' : DB}
    (h : insertAluno uid now p db = .ok db') :
    uid = some p.criado_por ∧ idadeCheck p.idade = true ∧
    emailTaken db p.email = false ∧ matriculaTaken db p.matricula = false ∧
    profileExists db p.criado_por = true ∧
    db' = { db with
            alunos := { id := db.nextId, nome := p.nome, email := p.email,
                        matricula := p.matricula, idade := p.idade,
                        criado_por := p.criado_por, created_at := now,
                        updated_at := now } :: db.alunos,
            nextId := db.nextId + 1 } := by
  unfold insertAluno at h
  by_cases h1 : uid ≠ some p.criado_por
  · rw [if_pos h1] at h
    exact Except.noConfusion h
  · rw [if_neg h1] at h
    by_cases h2 : idadeCheck p.idade = true
    · rw [if_neg (not_not_intro h2)] at h
      by_cases h3 : emailTaken db p.email = true
      · rw [if_pos h3] at h
        exact Except.noConfusion h
      · rw [if_neg h3] at h
        by_cases h4 : matriculaTaken db p.matricula = true
        · rw [if_pos h4] at h
          exact Except.noConfusion h
        · rw [if_neg h4] at h
          by_cases h5 : profileExists db p.criado_por = true
          · rw [if_neg (not_not_intro h5), Except.ok.injEq] at h
            exact ⟨not_not.1 h1, h2, Bool.of_not_eq_true h3,
              Bool.of_not_eq_true h4, h5, h.symm⟩
          · rw [if_pos h5] at h
            exact Except.noConfusion h
    · rw [if_pos h2] at h
      exact Except.noConfusion h

lemma updateAluno_error_cases {uid : Option Nat} {now rowId : Nat}
    {p : UpdatePayload} {db : DB} {e : String}
    (h : updateAluno uid now rowId p db = .error e) :
    e = rlsInsertAlunosMsg ∨ e = idadeCheckMsg ∨ e = dupAlunoEmailMsg ∨
    e = dupMatriculaMsg ∨ e = fkCriadoPorMsg := by
  unfold updateAluno at h
  rcases hfind : db.alunos.find?
      (fun a => a.id == rowId && some a.criado_por == uid) with _ | a
  · rw [hfind] at h
    exact Except.noConfusion h
  · rw [hfind] at h
    simp only at h
    by_cases h1 : uid ≠ some ({ applyPayload p a with updated_at := now } : Aluno).criado_por
    · rw [if_pos h1, Except.error.injEq] at h
      exact Or.inl h.symm
    · rw [if_neg h1] at h
      by_cases h2 : idadeCheck ({ applyPayload p a with updated_at := now } : Aluno).idade = true
      · rw [if_neg (not_not_intro h2)] at h
        by_cases h3 : (db.alunos.any fun b =>
            b.id ≠ a.id && b.email == ({ applyPayload p a with updated_at := now } : Aluno).email) = true
        · rw [if_pos h3, Except.error.injEq] at h
          exact Or.inr (Or.inr (Or.inl h.symm))
        · rw [if_neg h3] at h
          by_cases h4 : (db.alunos.any fun b =>
              b.id ≠ a.id && b.matricula == ({ applyPayload p a with updated_at := now } : Aluno).matricula) = true
          · rw [if_pos h4, Except.error.injEq] at h
            exact Or.inr (Or.inr (Or.inr (Or.inl h.symm)))
          · rw [if_neg h4] at h
            by_cases h5 : profileExists db ({ applyPayload p a with updated_at := now } : Aluno).criado_por = true
            · rw [if_neg (not_not_intro h5)] at h
              exact Except.noConfusion h
            · rw [if_pos h5, Except.error.injEq] at h
              exact Or.inr (Or.inr (Or.inr (Or.inr h.symm)))
      · rw [if_pos h2, Except.error.injEq] at h
        exact Or.inr (Or.inl h.symm)

lemma updateAluno_ok_inv {uid : Option Nat} {now rowId : Nat}
    {p : UpdatePayload} {db db' : DB}
    (h : updateAluno uid now rowId p db = .ok db') :
    (db.alunos.find? (fun a => a.id == rowId && some a.criado_por == uid)
        = none ∧ db' = db) ∨
    (∃ a, db.alunos.find? (fun a => a.id == rowId && some a.criado_por == uid)
        = some a ∧
      db' = { db with
              alunos := db.alunos.map (fun b =>
                if b.id = a.id
                then { applyPayload p a with updated_at := now } else b) }) := by
  unfold updateAluno at h
  rcases hfind : db.alunos.find?
      (fun a => a.id == rowId && some a.criado_por == uid) with _ | a
  · rw [hfind, Except.ok.injEq] at h
    exact Or.inl ⟨hfind, h.symm⟩
  · rw [hfind] at h
    simp only at h
    refine Or.inr ⟨a, hfind, ?_⟩
    by_cases h1 : uid ≠ some ({ applyPayload p a with updated_at := now } : Aluno).criado_por
    · rw [if_pos h1] at h
      exact Except.noConfusion h
    · rw [if_neg h1] at h
      by_cases h2 : idadeCheck ({ applyPayload p a with updated_at := now } : Aluno).idade = true
      · rw [if_neg (not_not_intro h2)] at h
        by_cases h3 : (db.alunos.any fun b =>
            b.id ≠ a.id && b.email == ({ applyPayload p a with updated_at := now } : Aluno).email) = true
        · rw [if_pos h3] at h
          exact Except.noConfusion h
        · rw [if_neg h3] at h
          by_cases h4 : (db.alunos.any fun b =>
              b.id ≠ a.id && b.matricula == ({ applyPayload p a with updated_at := now } : Aluno).matricula) = true
          · rw [if_pos h4] at h
            exact Except.noConfusion h
          · rw [if_neg h4] at h
            by_cases h5 : profileExists db ({ applyPayload p a with updated_at := now } : Aluno).criado_por = true
            · rw [if_neg (not_not_intro h5), Except.ok.injEq] at h
              exact h.symm
            · rw [if_pos h5] at h
              exact Except.noConfusion h
      · rw [if_pos h2] at h
        exact Except.noConfusion h

lemma validateAluno_age (emailOk : String → Bool)
    (nome email mat : String) (a : Int)
    (hnome2 : 2 ≤ (jsTrim nome).length) (hnome100 : (jsTrim nome).length ≤ 100)
    (hemailOk : emailOk (jsTrim email) = true)
    (hemail255 : (jsTrim email).length ≤ 255)
    (hmat3 : 3 ≤ (jsTrim mat).length) (hmat50 : (jsTrim mat).length ≤ 50) :
    validateAluno emailOk
      { nome := nome, email := email, matricula := mat, idade := some a } =
      if a < 1 then .error "Idade deve ser maior que 0"
      else if a > 150 then .error "Idade inválida"
      else .ok ⟨jsTrim nome, jsTrim email, jsTrim mat, a⟩ := by
  simp only [validateAluno]
  rw [if_neg (by omega), if_neg (by omega),
      if_neg (not_not_intro hemailOk), if_neg (by omega),
      if_neg (by omega), if_neg (by omega)]

/-- C3 (counterexample): an insert with age 150 and every other field
valid and non-conflicting does not succeed — the claim says 150 is
accepted, but the store's CHECK (idade > 0 AND idade < 150) rejects
it: the client surfaces the generic failure message and the table is
unchanged. -/
theorem insertAge150Fails :
    (handleSubmit (fun _ => true) (some 1) none
        { nome := "Bia Costa", email := "bia@x.com", matricula := "M002",
          idade := some 150 } 7 db1).toast = some "Erro ao criar aluno" ∧
    (handleSubmit (fun _ => true) (some 1) none
        { nome := "Bia Costa", email := "bia@x.com", matricula := "M002",
          idade := some 150 } 7 db1).db = db1 := by
  exact ⟨by decide, by decide⟩

/-- C3 (amended): for an integer age `a` on a student insert with every
other field valid and non-conflicting, the insert succeeds iff
1 ≤ a ≤ 149 — the client schema accepts ages up to 150, but the store's
CHECK (idade > 0 AND idade < 150) excludes 150, so 150 is rejected
(and 0 and 151 are rejected as the claim says). -/
theorem insertAgeBounds (emailOk : String → Bool) (u : Nat)
    (nome email mat : String) (a : Int) (db : DB) (now : Nat)
    (hnome2 : 2 ≤ (jsTrim nome).length) (hnome100 : (jsTrim nome).length ≤ 100)
    (hemailOk : emailOk (jsTrim email) = true)
    (hemail255 : (jsTrim email).length ≤ 255)
    (hmat3 : 3 ≤ (jsTrim mat).length) (hmat50 : (jsTrim mat).length ≤ 50)
    (hefree : emailTaken db (jsTrim email) = false)
    (hmfree : matriculaTaken db (jsTrim mat) = false)
    (hprof : profileExists db u = true) :
    ((handleSubmit emailOk (some u) none
        { nome := nome, email := email, matricula := mat, idade := some a }
        now db).toast = some "Aluno criado com sucesso!")
      ↔ (1 ≤ a ∧ a ≤ 149) := by
  have hveq := validateAluno_age emailOk nome email mat a
    hnome2 hnome100 hemailOk hemail255 hmat3 hmat50
  by_cases ha1 : a < 1
  · rw [if_pos ha1] at hveq
    rw [handleSubmit_validation_error (some u) none now db hveq]
    refine iff_of_false (fun hcon => ?_) (by omega)
    exact absurd (show (some "Idade deve ser maior que 0" : Option String)
      = some "Aluno criado com sucesso!" from hcon) (by decide)
  · rw [if_neg ha1] at hveq
    by_cases ha2 : a > 150
    · rw [if_pos ha2] at hveq
      rw [handleSubmit_validation_error (some u) none now db hveq]
      refine iff_of_false (fun hcon => ?_) (by omega)
      exact absurd (show (some "Idade inválida" : Option String)
        = some "Aluno criado com sucesso!" from hcon) (by decide)
    · rw [if_neg ha2] at hveq
      rw [handleSubmit_create_eq u now db _ _ _ _ hveq]
      rcases hres : insertAluno (some u) now
          { nome := jsTrim nome, email := jsTrim email,
            matricula := jsTrim mat, idade := a, criado_por := u } db
          with e | db2
      · rcases insertAluno_error_inv hres with
          ⟨h1, _⟩ | ⟨_, hck, he⟩ | ⟨_, _, hta, _⟩ |
          ⟨_, _, _, hta, _⟩ | ⟨_, _, _, _, hfk, _⟩
        · exact absurd rfl (show (some u : Option Nat) ≠ some u from h1)
        · subst he
          have hck' : idadeCheck a = false := hck
          have ha150 : a = 150 := by
            by_contra hne
            rw [show idadeCheck a = true by
              simp only [idadeCheck, Bool.and_eq_true, decide_eq_true_eq]
              omega] at hck'
            exact Bool.noConfusion hck'
          refine iff_of_false (fun hcon => ?_) (by omega)
          exact absurd (show classifyError "Erro ao criar aluno" idadeCheckMsg
            = some "Aluno criado com sucesso!" from hcon) (by decide)
        · have hta' : emailTaken db (jsTrim email) = true := hta
          rw [hefree] at hta'
          exact Bool.noConfusion hta'
        · have hta' : matriculaTaken db (jsTrim mat) = true := hta
          rw [hmfree] at hta'
          exact Bool.noConfusion hta'
        · have hfk' : profileExists db u = false := hfk
          rw [hprof] at hfk'
          exact Bool.noConfusion hfk'
      · refine iff_of_true rfl ⟨by omega, ?_⟩
        have hck : idadeCheck a = true := (insertAluno_ok_inv hres).2.1
        simp only [idadeCheck, Bool.and_eq_true, decide_eq_true_eq] at hck
        omega

/-- Witness for the amended C3 at a concrete input: with all other
fields valid and non-conflicting, the insert of age 21 succeeds
(because 1 ≤ 21 ≤ 149). -/
theorem insertAgeBounds_witness :
    ((handleSubmit (fun _ => true) (some 1) none
        { nome := "Bia Costa", email := "bia@x.com", matricula := "M002",
          idade := some 21 } 7 db1).toast = some "Aluno criado com sucesso!")
      ↔ (1 ≤ (21 : Int) ∧ (21 : Int) ≤ 149) :=
  insertAgeBounds (fun _ => true) 1 "Bia Costa" "bia@x.com" "M002" 21 db1 7
    (by decide) (by decide) (by decide) (by decide) (by decide) (by decide)
    (by decide) (by decide) (by decide)

lemma validateAluno_ok_iff (emailOk : String → Bool) (f : RawForm) :
    (∃ v, validateAluno emailOk f = .ok v) ↔
      (2 ≤ (jsTrim f.nome).length ∧ (jsTrim f.nome).length ≤ 100 ∧
       emailOk (jsTrim f.email) = true ∧ (jsTrim f.email).length ≤ 255 ∧
       3 ≤ (jsTrim f.matricula).length ∧ (jsTrim f.matricula).length ≤ 50 ∧
       ∃ n, f.idade = some n ∧ 1 ≤ n ∧ n ≤ 150) := by
  simp only [validateAluno]
  by_cases h1 : (jsTrim f.nome).length < 2
  · rw [if_pos h1]
    exact iff_of_false (fun hex => nomatch hex.choose_spec)
      (fun hc => absurd hc.1 (by omega))
  · rw [if_neg h1]
    by_cases h2 : (jsTrim f.nome).length > 100
    · rw [if_pos h2]
      exact iff_of_false (fun hex => nomatch hex.choose_spec)
        (fun hc => absurd hc.2.1 (by omega))
    · rw [if_neg h2]
      by_cases h3 : emailOk (jsTrim f.email) = true
      · rw [if_neg (not_not_intro h3)]
        by_cases h4 : (jsTrim f.email).length > 255
        · rw [if_pos h4]
          exact iff_of_false (fun hex => nomatch hex.choose_spec)
            (fun hc => absurd hc.2.2.2.1 (by omega))
        · rw [if_neg h4]
          by_cases h5 : (jsTrim f.matricula).length < 3
          · rw [if_pos h5]
            exact iff_of_false (fun hex => nomatch hex.choose_spec)
              (fun hc => absurd hc.2.2.2.2.1 (by omega))
          · rw [if_neg h5]
            by_cases h6 : (jsTrim f.matricula).length > 50
            · rw [if_pos h6]
              exact iff_of_false (fun hex => nomatch hex.choose_spec)
                (fun hc => absurd hc.2.2.2.2.2.1 (by omega))
            · rw [if_neg h6]
              rcases hid : f.idade with _ | n
              · show (∃ v, (Except.error "Expected number, received nan" :
                    Except String ValidatedAluno) = Except.ok v) ↔ _
                refine iff_of_false (fun hex => nomatch hex.choose_spec)
                  (fun hc => ?_)
                obtain ⟨m, hm, _⟩ := hc.2.2.2.2.2.2
                exact Option.noConfusion hm
              · show (∃ v, (if n < 1
                      then Except.error "Idade deve ser maior que 0"
                      else if n > 150 then Except.error "Idade inválida"
                      else Except.ok (ValidatedAluno.mk (jsTrim f.nome)
                        (jsTrim f.email) (jsTrim f.matricula) n))
                    = Except.ok v) ↔ _
                by_cases hn1 : n < 1
                · rw [if_pos hn1]
                  refine iff_of_false (fun hex => nomatch hex.choose_spec)
                    (fun hc => ?_)
                  obtain ⟨m, hm, hm1, _⟩ := hc.2.2.2.2.2.2
                  rw [Option.some.injEq] at hm
                  omega
                · rw [if_neg hn1]
                  by_cases hn2 : n > 150
                  · rw [if_pos hn2]
                    refine iff_of_false (fun hex => nomatch hex.choose_spec)
                      (fun hc => ?_)
                    obtain ⟨m, hm, _, hm2⟩ := hc.2.2.2.2.2.2
                    rw [Option.some.injEq] at hm
                    omega
                  · rw [if_neg hn2]
                    refine iff_of_true ⟨_, rfl⟩
                      ⟨by omega, by omega, h3, by omega, by omega, by omega,
                       n, rfl, by omega, by omega⟩
      · rw [if_pos h3]
        exact iff_of_false (fun hex => nomatch hex.choose_spec)
          (fun hc => absurd hc.2.2.1 h3)

/-- C5: validation accepts a submitted form iff the trimmed name length
is in [2,100], the trimmed email passes the well-formedness predicate
(zod's `.email()`, the parameter `emailOk`) and is at most 255 long,
the trimmed matricula length is in [3,50], and the age parses to an
integer in [1,150]. When validation rejects, its error message is the
toast surfaced and no store request is sent; the rules run in field
order and stop at the first failure — in particular a too-short name
surfaces the name message whatever the other fields hold. -/
theorem validationAcceptance (emailOk : String → Bool) (f : RawForm) :
    ((∃ v, validateAluno emailOk f = .ok v) ↔
      (2 ≤ (jsTrim f.nome).length ∧ (jsTrim f.nome).length ≤ 100 ∧
       emailOk (jsTrim f.email) = true ∧ (jsTrim f.email).length ≤ 255 ∧
       3 ≤ (jsTrim f.matricula).length ∧ (jsTrim f.matricula).length ≤ 50 ∧
       ∃ n, f.idade = some n ∧ 1 ≤ n ∧ n ≤ 150)) ∧
    (∀ m, validateAluno emailOk f = .error m →
      ∀ (user editing : Option Nat) (now : Nat) (db : DB),
        (handleSubmit emailOk user editing f now db).requests = [] ∧
        (handleSubmit emailOk user editing f now db).toast = some m) ∧
    ((jsTrim f.nome).length < 2 →
      validateAluno emailOk f = .error "Nome deve ter no mínimo 2 caracteres") := by
  refine ⟨validateAluno_ok_iff emailOk f, ?_, ?_⟩
  · intro m hm user editing now db
    rw [handleSubmit_validation_error user editing now db hm]
    exact ⟨rfl, rfl⟩
  · intro hshort
    simp only [validateAluno]
    rw [if_pos hshort]

/-- Witness for C5 at a concrete form: a one-character name is rejected
with the name-too-short message, and no store request is sent. -/
theorem validationAcceptance_witness :
    (handleSubmit (fun _ => true) (some 1) none fShortNome 7 db1).requests
        = [] ∧
    (handleSubmit (fun _ => true) (some 1) none fShortNome 7 db1).toast
        = some "Nome deve ter no mínimo 2 caracteres" := by
  have h := validationAcceptance (fun _ => true) fShortNome
  exact h.2.1 _ (h.2.2 (by decide)) (some 1) none 7 db1

lemma insertAluno_error_five {uid : Option Nat} {now : Nat}
    {p : InsertPayload} {db : DB} {e : String}
    (h : insertAluno uid now p db = .error e) :
    e = rlsInsertAlunosMsg ∨ e = idadeCheckMsg ∨ e = dupAlunoEmailMsg ∨
    e = dupMatriculaMsg ∨ e = fkCriadoPorMsg := by
  rcases insertAluno_error_inv h with
    ⟨_, he⟩ | ⟨_, _, he⟩ | ⟨_, _, _, he⟩ | ⟨_, _, _, _, he⟩ | ⟨_, _, _, _, _, he⟩
  · exact Or.inl he
  · exact Or.inr (Or.inl he)
  · exact Or.inr (Or.inr (Or.inl he))
  · exact Or.inr (Or.inr (Or.inr (Or.inl he)))
  · exact Or.inr (Or.inr (Or.inr (Or.inr he)))

lemma classify_of_store_error (generic : String) {e : String}
    (he : e = rlsInsertAlunosMsg ∨ e = idadeCheckMsg ∨ e = dupAlunoEmailMsg ∨
      e = dupMatriculaMsg ∨ e = fkCriadoPorMsg) :
    ∃ m, classifyError generic e = some m ∧
      (e = dupAlunoEmailMsg → m = "Este email já está cadastrado") ∧
      (e = dupMatriculaMsg → m = "Esta matrícula já está cadastrada") ∧
      (e ≠ dupAlunoEmailMsg → e ≠ dupMatriculaMsg → m = generic) := by
  rcases he with rfl | rfl | rfl | rfl | rfl
  · refine ⟨generic, ?_, fun h => absurd h (by decide),
      fun h => absurd h (by decide), fun _ _ => rfl⟩
    unfold classifyError
    rw [if_neg (by decide)]
  · refine ⟨generic, ?_, fun h => absurd h (by decide),
      fun h => absurd h (by decide), fun _ _ => rfl⟩
    unfold classifyError
    rw [if_neg (by decide)]
  · refine ⟨"Este email já está cadastrado", ?_, fun _ => rfl,
      fun h => absurd h (by decide), fun h _ => absurd rfl h⟩
    unfold classifyError
    rw [if_pos (by decide), if_pos (by decide)]
  · refine ⟨"Esta matrícula já está cadastrada", ?_,
      fun h => absurd h (by decide), fun _ => rfl, fun _ h => absurd rfl h⟩
    unfold classifyError
    rw [if_pos (by decide), if_neg (by decide), if_pos (by decide)]
  · refine ⟨generic, ?_, fun h => absurd h (by decide),
      fun h => absurd h (by decide), fun _ _ => rfl⟩
    unfold classifyError
    rw [if_neg (by decide)]

/-- C6: every create or update the store rejects surfaces a toast: a
duplicate-key error naming `email` yields the email-conflict message, a
duplicate-key error naming `matricula` yields the matricula-conflict
message, and every other store error yields the operation's generic
failure message; the surfaced toast of `handleSubmit` is exactly this
classification of the store error. -/
theorem rejectedRequestSurfacesMessage :
    (∀ (uid : Option Nat) (now : Nat) (p : InsertPayload) (db : DB)
        (e : String), insertAluno uid now p db = .error e →
      ∃ m, classifyError "Erro ao criar aluno" e = some m ∧
        (e = dupAlunoEmailMsg → m = "Este email já está cadastrado") ∧
        (e = dupMatriculaMsg → m = "Esta matrícula já está cadastrada") ∧
        (e ≠ dupAlunoEmailMsg → e ≠ dupMatriculaMsg →
          m = "Erro ao criar aluno")) ∧
    (∀ (uid : Option Nat) (now rowId : Nat) (p : UpdatePayload) (db : DB)
        (e : String), updateAluno uid now rowId p db = .error e →
      ∃ m, classifyError "Erro ao atualizar aluno" e = some m ∧
        (e = dupAlunoEmailMsg → m = "Este email já está cadastrado") ∧
        (e = dupMatriculaMsg → m = "Esta matrícula já está cadastrada") ∧
        (e ≠ dupAlunoEmailMsg → e ≠ dupMatriculaMsg →
          m = "Erro ao atualizar aluno")) ∧
    (∀ (emailOk : String → Bool) (u : Nat) (f : RawForm) (now : Nat)
        (db : DB) (vn ve vm : String) (vi : Int) (e : String),
      validateAluno emailOk f = .ok ⟨vn, ve, vm, vi⟩ →
      insertAluno (some u) now ⟨vn, ve, vm, vi, u⟩ db = .error e →
      (handleSubmit emailOk (some u) none f now db).toast
        = classifyError "Erro ao criar aluno" e) ∧
    (∀ (emailOk : String → Bool) (u rowId : Nat) (f : RawForm) (now : Nat)
        (db : DB) (vn ve vm : String) (vi : Int) (e : String),
      validateAluno emailOk f = .ok ⟨vn, ve, vm, vi⟩ →
      updateAluno (some u) now rowId (toUpdatePayload ⟨vn, ve, vm, vi⟩) db
        = .error e →
      (handleSubmit emailOk (some u) (some rowId) f now db).toast
        = classifyError "Erro ao atualizar aluno" e) := by
  refine ⟨?_, ?_, ?_, ?_⟩
  · intro uid now p db e h
    exact classify_of_store_error "Erro ao criar aluno"
      (insertAluno_error_five h)
  · intro uid now rowId p db e h
    exact classify_of_store_error "Erro ao atualizar aluno"
      (updateAluno_error_cases h)
  · intro emailOk u f now db vn ve vm vi e hv hres
    rw [handleSubmit_create_eq u now db vn ve vm vi hv, hres]
  · intro emailOk u rowId f now db vn ve vm vi e hv hres
    rw [handleSubmit_update_eq u rowId now db vn ve vm vi hv, hres]

/-- Witness for C6 at a concrete rejection: inserting `p2` (which
duplicates `aluno0`'s email) into `db1` is rejected, and the
classification surfaces the email-conflict message. -/
theorem rejectedRequestSurfacesMessage_witness :
    ∃ m, classifyError "Erro ao criar aluno" dupAlunoEmailMsg = some m ∧
      (dupAlunoEmailMsg = dupAlunoEmailMsg →
        m = "Este email já está cadastrado") ∧
      (dupAlunoEmailMsg = dupMatriculaMsg →
        m = "Esta matrícula já está cadastrada") ∧
      (dupAlunoEmailMsg ≠ dupAlunoEmailMsg → dupAlunoEmailMsg ≠ dupMatriculaMsg →
        m = "Erro ao criar aluno") :=
  rejectedRequestSurfacesMessage.1 (some 1) 7 p2 db1 dupAlunoEmailMsg (by rfl)

/-- C7 (counterexample): a delete attempted with no authenticated
session is not rejected client-side — `handleDelete` performs no
authentication check, so the delete request does reach the store. -/
theorem unauthDeleteReachesStore :
    (handleDelete none (some 0) db1).requests = [StoreReq.delete 0] ∧
    (handleDelete none (some 0) db1).requests ≠ [] := by
  exact ⟨rfl, by decide⟩

/-- C7 (amended): create and update mutations attempted with no
authenticated identity are rejected client-side — `handleSubmit`
surfaces a message and sends nothing, leaving the store untouched —
but the delete handler has no client-side authentication check: it
always sends the delete request, and only the store's RLS (for which
an absent session matches no rows) leaves the store unchanged. -/
theorem unauthMutationHandling :
    (∀ (emailOk : String → Bool) (editing : Option Nat) (f : RawForm)
        (now : Nat) (db : DB),
      (handleSubmit emailOk none editing f now db).requests = [] ∧
      (handleSubmit emailOk none editing f now db).db = db) ∧
    (∀ (sessionUid : Option Nat) (rowId : Nat) (db : DB),
      (handleDelete sessionUid (some rowId) db).requests
        = [StoreReq.delete rowId]) ∧
    (∀ (rowId : Nat) (db : DB),
      (handleDelete none (some rowId) db).db = db) := by
  refine ⟨?_, ?_, ?_⟩
  · intro emailOk editing f now db
    rcases hv : validateAluno emailOk f with m | v
    · rw [handleSubmit_validation_error none editing now db hv]
      exact ⟨rfl, rfl⟩
    · rw [handleSubmit_noauth editing now db hv]
      exact ⟨rfl, rfl⟩
  · intro sessionUid rowId db
    rfl
  · intro rowId db
    have hfe : db.alunos.filter
        (fun a => ¬ (a.id = rowId ∧ some a.criado_por = none)) = db.alunos :=
      List.filter_eq_self.2 (fun a _ => by simp)
    show ({ db with alunos := db.alunos.filter (fun a => ¬ (a.id = rowId ∧ some a.criado_por = none)) } : DB) = db
    rw [hfe]

lemma updateProfile_ok_inv {uid : Option Nat} {now rowId : Nat}
    {p : ProfileUpdatePayload} {db db' : DB}
    (h : updateProfile uid now rowId p db = .ok db') :
    (db.profiles.find? (fun pr => pr.id == rowId && some pr.id == uid)
        = none ∧ db' = db) ∨
    (∃ pr, db.profiles.find? (fun pr => pr.id == rowId && some pr.id == uid)
        = some pr ∧
      db' = { db with
              profiles := db.profiles.map (fun q =>
                if q.id = pr.id
                then { applyProfilePayload p pr with updated_at := now }
                else q) }) := by
  unfold updateProfile at h
  rcases hfind : db.profiles.find?
      (fun pr => pr.id == rowId && some pr.id == uid) with _ | pr
  · rw [hfind, Except.ok.injEq] at h
    exact Or.inl ⟨hfind, h.symm⟩
  · rw [hfind] at h
    simp only at h
    refine Or.inr ⟨pr, hfind, ?_⟩
    by_cases h1 : uid ≠ some ({ applyProfilePayload p pr with updated_at := now } : Profile).id
    · rw [if_pos h1] at h
      exact Except.noConfusion h
    · rw [if_neg h1] at h
      by_cases h2 : (db.profiles.any fun q =>
          q.id ≠ pr.id && q.email == ({ applyProfilePayload p pr with updated_at := now } : Profile).email) = true
      · rw [if_pos h2] at h
        exact Except.noConfusion h
      · rw [if_neg h2, Except.ok.injEq] at h
        exact h.symm

/-- C8 (counterexample): the `updated_at` trigger overrides only
`updated_at`; nothing protects `created_at`, so an update whose payload
supplies `created_at` does change it — here `aluno0`'s creation
timestamp moves from 6 to 99 while `updated_at` is forced to 8. -/
theorem updateCanChangeCreatedAt :
    updateAluno (some 1) 8 0 upCreatedPayload db1 = Except.ok db1shifted ∧
    aluno0.created_at = 6 ∧ aluno0shifted.created_at = 99 := by
  exact ⟨rfl, rfl, rfl⟩

/-- C8 (amended): every row touched by a successful student or profile
update gets `updated_at = now` (the BEFORE UPDATE trigger overrides any
client-supplied `updated_at`), and its `created_at` is unchanged
provided the update payload does not itself set `created_at` — which
no client code of this repository ever does, but the storage boundary
does not forbid it. -/
theorem updateTimestamps :
    (∀ (uid : Option Nat) (now rowId : Nat) (p : UpdatePayload) (db db' : DB),
      updateAluno uid now rowId p db = .ok db' →
      ∀ b' ∈ db'.alunos, ∃ b ∈ db.alunos, b'.id = b.id ∧
        (p.created_at = none → b'.created_at = b.created_at) ∧
        (b' = b ∨ b'.updated_at = now)) ∧
    (∀ (uid : Option Nat) (now rowId : Nat) (p : ProfileUpdatePayload)
        (db db' : DB),
      updateProfile uid now rowId p db = .ok db' →
      ∀ q' ∈ db'.profiles, ∃ q ∈ db.profiles, q'.id = q.id ∧
        (p.created_at = none → q'.created_at = q.created_at) ∧
        (q' = q ∨ q'.updated_at = now)) := by
  constructor
  · intro uid now rowId p db db' h b' hb'
    rcases updateAluno_ok_inv h with ⟨_, rfl⟩ | ⟨a, hfind, rfl⟩
    · exact ⟨b', hb', rfl, fun _ => rfl, Or.inl rfl⟩
    · obtain ⟨c, hc, rfl⟩ := List.mem_map.1 hb'
      by_cases hcz : c.id = a.id
      · rw [if_pos hcz]
        refine ⟨a, List.mem_of_find?_eq_some hfind, ?_, ?_, Or.inr rfl⟩
        · show (applyPayload p a).id = a.id
          rfl
        · intro hnone
          show (applyPayload p a).created_at = a.created_at
          unfold applyPayload
          rw [hnone]
          rfl
      · rw [if_neg hcz]
        exact ⟨c, hc, rfl, fun _ => rfl, Or.inl rfl⟩
  · intro uid now rowId p db db' h q' hq'
    rcases updateProfile_ok_inv h with ⟨_, rfl⟩ | ⟨pr, hfind, rfl⟩
    · exact ⟨q', hq', rfl, fun _ => rfl, Or.inl rfl⟩
    · obtain ⟨c, hc, rfl⟩ := List.mem_map.1 hq'
      by_cases hcz : c.id = pr.id
      · rw [if_pos hcz]
        refine ⟨pr, List.mem_of_find?_eq_some hfind, ?_, ?_, Or.inr rfl⟩
        · show (applyProfilePayload p pr).id = pr.id
          rfl
        · intro hnone
          show (applyProfilePayload p pr).created_at = pr.created_at
          unfold applyProfilePayload
          rw [hnone]
          rfl
      · rw [if_neg hcz]
        exact ⟨c, hc, rfl, fun _ => rfl, Or.inl rfl⟩

/-- Witness for the amended C8 at a concrete edit: updating `aluno0`
through the edit-form payload `vEdit` at time 8 leaves `created_at` at
6 and forces `updated_at` to 8. -/
theorem updateTimestamps_witness :
    ∃ b ∈ db1.alunos, aluno0edit.id = b.id ∧
      ((toUpdatePayload vEdit).created_at = none →
        aluno0edit.created_at = b.created_at) ∧
      (aluno0edit = b ∨ aluno0edit.updated_at = 8) :=
  updateTimestamps.1 (some 1) 8 0 (toUpdatePayload vEdit) db1 db1edit
    (by rfl) aluno0edit (by decide)

/-- C10: the edit form's update payload carries exactly the four
validated fields — its `criado_por`, `created_at` and `updated_at`
slots are absent — the update request sent is precisely that payload,
and therefore any successful such update leaves every row's id, owner
reference and creation timestamp unchanged. -/
theorem editFormFramePreservation :
    (∀ v : ValidatedAluno, (toUpdatePayload v).criado_por = none ∧
        (toUpdatePayload v).created_at = none ∧
        (toUpdatePayload v).updated_at = none) ∧
    (∀ (emailOk : String → Bool) (u rowId : Nat) (f : RawForm) (now : Nat)
        (db : DB) (vn ve vm : String) (vi : Int),
      validateAluno emailOk f = .ok ⟨vn, ve, vm, vi⟩ →
      (handleSubmit emailOk (some u) (some rowId) f now db).requests
        = [StoreReq.update rowId (toUpdatePayload ⟨vn, ve, vm, vi⟩)]) ∧
    (∀ (uid : Option Nat) (now rowId : Nat) (v : ValidatedAluno)
        (db db' : DB),
      updateAluno uid now rowId (toUpdatePayload v) db = .ok db' →
      ∀ b' ∈ db'.alunos, ∃ b ∈ db.alunos,
        b'.id = b.id ∧ b'.criado_por = b.criado_por ∧
        b'.created_at = b.created_at) := by
  refine ⟨fun v => ⟨rfl, rfl, rfl⟩, ?_, ?_⟩
  · intro emailOk u rowId f now db vn ve vm vi hv
    rw [handleSubmit_update_eq u rowId now db vn ve vm vi hv]
    rcases hres : updateAluno (some u) now rowId
        (toUpdatePayload ⟨vn, ve, vm, vi⟩) db with e | db2 <;> rfl
  · intro uid now rowId v db db' h b' hb'
    rcases updateAluno_ok_inv h with ⟨_, rfl⟩ | ⟨a, hfind, rfl⟩
    · exact ⟨b', hb', rfl, rfl, rfl⟩
    · obtain ⟨c, hc, rfl⟩ := List.mem_map.1 hb'
      by_cases hcz : c.id = a.id
      · rw [if_pos hcz]
        refine ⟨a, List.mem_of_find?_eq_some hfind, ?_, ?_, ?_⟩
        · show (applyPayload (toUpdatePayload v) a).id = a.id
          rfl
        · show (applyPayload (toUpdatePayload v) a).criado_por = a.criado_por
          rfl
        · show (applyPayload (toUpdatePayload v) a).created_at = a.created_at
          rfl
      · rw [if_neg hcz]
        exact ⟨c, hc, rfl, rfl, rfl⟩

/-- Witness for C10 at a concrete edit: the `vEdit` update of `aluno0`
keeps its id, owner and creation timestamp. -/
theorem editFormFramePreservation_witness :
    ∃ b ∈ db1.alunos, aluno0edit.id = b.id ∧
      aluno0edit.criado_por = b.criado_por ∧
      aluno0edit.created_at = b.created_at :=
  editFormFramePreservation.2.2 (some 1) 8 0 vEdit db1 db1edit (by rfl)
    aluno0edit (by decide)

/-- C9: creating an identity provisions, in the same transaction,
exactly one profile whose id is the identity's id, whose email is the
identity's email and whose name is the signup metadata field `nome`
(empty string when absent); and if the provisioning insert fails, the
identity creation itself fails. -/
theorem signupProvisionsProfile :
    (∀ (u : AuthUser) (now : Nat) (db db' : DB),
      createUser u now db = .ok db' →
      db'.profiles.countP (fun pr => pr.id == u.id) = 1 ∧
      ∃ pr ∈ db'.profiles, pr.id = u.id ∧ pr.email = u.email ∧
        pr.nome = u.meta_nome.getD "") ∧
    (∀ (u : AuthUser) (now : Nat) (db : DB) (e : String),
      handle_new_user u now db.profiles = .error e →
      ∃ e', createUser u now db = .error e') := by
  constructor
  · intro u now db db' h
    unfold createUser at h
    by_cases h1 : (db.users.any fun v => v.id == u.id) = true
    · rw [if_pos h1] at h
      exact Except.noConfusion h
    · rw [if_neg h1] at h
      rcases hh : handle_new_user u now db.profiles with e | ps
      · rw [hh] at h
        exact Except.noConfusion h
      · rw [hh] at h
        have h' : Except.ok (ε := String)
            ({ db with users := u :: db.users, profiles := ps } : DB)
            = .ok db' := h
        rw [Except.ok.injEq] at h'
        subst h'
        unfold handle_new_user at hh
        by_cases hp1 : (db.profiles.any fun pr => pr.id == u.id) = true
        · rw [if_pos hp1] at hh
          exact Except.noConfusion hh
        · rw [if_neg hp1] at hh
          by_cases hp2 : (db.profiles.any fun pr => pr.email == u.email) = true
          · rw [if_pos hp2] at hh
            exact Except.noConfusion hh
          · rw [if_neg hp2, Except.ok.injEq] at hh
            subst hh
            constructor
            · rw [List.countP_cons_of_pos _ _ (by simp)]
              have hzero : db.profiles.countP (fun pr => pr.id == u.id) = 0 := by
                rw [List.countP_eq_zero]
                exact List.any_eq_false.1 (Bool.of_not_eq_true hp1)
              rw [hzero]
            · exact ⟨_, List.mem_cons_self _ _, rfl, rfl, rfl⟩
  · intro u now db e h
    unfold createUser
    by_cases h1 : (db.users.any fun v => v.id == u.id) = true
    · rw [if_pos h1]
      exact ⟨_, rfl⟩
    · rw [if_neg h1, h]
      exact ⟨e, rfl⟩

/-- Witness for C9 at the concrete signup of `u0` from the empty store:
exactly one profile with `u0`'s id exists afterwards, carrying `u0`'s
email and metadata name. -/
theorem signupProvisionsProfile_witness :
    dbS.profiles.countP (fun pr => pr.id == u0.id) = 1 ∧
    ∃ pr ∈ dbS.profiles, pr.id = u0.id ∧ pr.email = u0.email ∧
      pr.nome = u0.meta_nome.getD "" :=
  signupProvisionsProfile.1 u0 5 DB.empty dbS (by rfl)

end CrudAlunos
